import Mathlib

/-!
Verification development for the SFMP file-transfer system
(src/server/server.py and src/client/client.py).

The embedding models the protocol-facing code of both sides:

* the Python OS interface (os.path.exists, open, os.makedirs, os.listdir)
  is modeled by an explicit file-system state `FS`; `os.path.abspath` and
  `os.path.dirname` are library functions outside the repository and are
  passed as uninterpreted function parameters `ap` and `dn`;
* each handler (server get/put/ls, client get/put/ls) is a pure function
  from its inputs (file system, argument list, network inputs) to a result
  `HRes`: the new file system, the ordered trace of observable events
  (sends, receives, file opens, directory creations, listing), and an
  outcome mirroring the Python control flow (normal return,
  InvalidCommandException, EmptyFileException, ConnectionError, or an
  uncaught exception that kills the session thread);
* network receives are modeled by `RecvRes`: either a delivered string
  (already UTF-8 decoded) or a ConnectionError; sends are modeled by a
  single `sendOk` flag per step (either every send succeeds or the first
  attempted send raises ConnectionError);
* one iteration of the server main loop in handle_client, together with
  the termination actions after the loop (conn.close, removal of the
  registry entry), is `handle_client_step`; the accept loop body of main
  is `acceptClient`.

Paths are opaque names: failure modes tied to the path hierarchy (for
example os.makedirs failing because a path component is a regular file)
are outside the model; no claim depends on them.
-/

namespace SFMP

/-- Address of a client: host and port, as in the Python (str, int) pair. -/
abbrev Addr := String × Nat

/-- A file-system entry as seen through the os.path and open interface:
a regular file with its text content and a flag recording whether open
for reading succeeds on it, or a directory. -/
inductive Entry where
  | file (content : String) (readable : Bool)
  | dir
deriving DecidableEq

/-- The file-system state: entries keyed by path name, plus the current
result of os.listdir of the working directory (the listing is a separate
OS call in the source, so it is carried as its own field). -/
structure FS where
  entries : List (String × Entry)
  cwdList : List String
deriving DecidableEq

/-- Entry stored at a path, if any. -/
def FS.lookup (fs : FS) (p : String) : Option Entry :=
  (fs.entries.find? (fun e => e.fst == p)).map (fun e => e.snd)

/-- Models os.path.exists: an entry of either kind is present. -/
def FS.existsPath (fs : FS) (p : String) : Bool :=
  (fs.lookup p).isSome

/-- Replace or create the entry at a path. -/
def FS.setEntry (fs : FS) (p : String) (en : Entry) : FS :=
  ⟨(p, en) :: fs.entries.filter (fun e => e.fst != p), fs.cwdList⟩

/-- Models a truncating write-mode open followed by writing content c:
an existing regular file keeps its permission flag, a fresh file is
created readable. -/
def FS.writeFile (fs : FS) (p : String) (c : String) : FS :=
  match fs.lookup p with
  | some (Entry.file _ r) => fs.setEntry p (Entry.file c r)
  | _ => fs.setEntry p (Entry.file c true)

/-- Models os.makedirs on a path whose directory does not exist yet. -/
def FS.mkdirs (fs : FS) (p : String) : FS :=
  fs.setEntry p Entry.dir

/-- Observable events of one command handling, in program order. -/
inductive Ev where
  | send (s : String)
  | recv (s : String)
  | openRead (p : String)
  | openWrite (p : String)
  | mkdirs (p : String)
  | write (p : String) (d : String)
  | listDir
  | close
deriving DecidableEq

/-- Control-flow outcome of one handler call, mirroring the Python
exceptions: normal return, InvalidCommandException, EmptyFileException,
ConnectionError, or any other uncaught exception (IndexError from
args[1], an OSError from an unguarded open, ...) which kills the
session thread. -/
inductive Outcome where
  | ok
  | invalid
  | empty
  | connError
  | crash
deriving DecidableEq

/-- Result of one handler call. -/
structure HRes where
  fs : FS
  trace : List Ev
  outcome : Outcome
deriving DecidableEq

/-- Result of one socket recv: a delivered, UTF-8 decoded string
(possibly empty, which is how a closed peer reads), or a raised
ConnectionError. -/
inductive RecvRes where
  | msg (s : String)
  | connErr
deriving DecidableEq

/-- Helper for pySplit: splits a character list at every separator,
keeping empty pieces, as the Python str.split with an explicit
separator does. -/
def pySplitAux (sep : Char) : List Char → List Char → List (List Char)
  | [], acc => [acc.reverse]
  | c :: cs, acc =>
    if c = sep then acc.reverse :: pySplitAux sep cs []
    else pySplitAux sep cs (c :: acc)

/-- Models the Python str.split with an explicit one-character
separator: every occurrence splits, empty pieces are kept, the result
is never the empty list. -/
def pySplit (s : String) (sep : Char) : List String :=
  (pySplitAux sep s.data []).map String.mk

/-- Models str.upper (ASCII case mapping). -/
def pyUpper (s : String) : String :=
  String.mk (s.data.map Char.toUpper)

/-- Models a text-mode f.read(n): at most n characters. -/
def pyRead (c : String) (n : Nat) : String :=
  String.mk (c.data.take n)

/-- Models str.join of a separator over a list. -/
def pyJoin (sep : String) : List String → String
  | [] => ""
  | [x] => x
  | x :: xs => x ++ sep ++ pyJoin sep xs

/-- The set of valid request headers, from server.py. -/
def valid_headers : List String := ["GET", "PUT", "LS"]

namespace Server

/-- Server get handler (server.py, function get inside handle_client).
Source order: arity check raising InvalidCommandException; existence
check on args[1] (os.path.exists never raises, so the except OSError arm
only fires through the explicit raise on a missing path, or through the
vprint(True) VALID send: ConnectionError is a subclass of OSError, so a
transport failure at that send is transmuted by the except OSError arm
into InvalidCommandException, here the invalid outcome with the sends
failing); then, outside any try, open for reading: a path that exists
but is not a readable regular file makes that open raise an uncaught
OSError, killing the thread. A read of at most 4096 units; an empty
read sends the single NUL sentinel and raises EmptyFileException,
otherwise the data is sent. -/
def get (fs : FS) (args : List String) (sendOk : Bool) : HRes :=
  if args.length ≠ 3 then ⟨fs, [], Outcome.invalid⟩
  else
    let path := args.getD 1 ""
    if fs.existsPath path then
      if sendOk then
        match fs.lookup path with
        | some (Entry.file content true) =>
          let data := pyRead content 4096
          if data = "" then
            ⟨fs, [Ev.send "VALID", Ev.openRead path, Ev.send "\x00"], Outcome.empty⟩
          else
            ⟨fs, [Ev.send "VALID", Ev.openRead path, Ev.send data], Outcome.ok⟩
        | _ => ⟨fs, [Ev.send "VALID"], Outcome.crash⟩
      else ⟨fs, [], Outcome.invalid⟩
    else ⟨fs, [], Outcome.invalid⟩

/-- Server put handler (server.py, function put inside handle_client).
Source order: arity check; abspath and dirname of args[2]; makedirs when
the directory does not exist yet, BEFORE vprint(True) sends VALID; the
VALID send sits inside the try whose except OSError arm raises
InvalidCommandException, and ConnectionError is a subclass of OSError,
so a transport failure at that send becomes the invalid outcome (with
any makedirs side effect already persisted); then, outside the try, a
truncating open of the destination (an uncaught OSError, for example
when the destination is a directory, kills the thread); one recv of at
most 4096 units, whose ConnectionError propagates uncaught to the loop;
a nonempty payload is written. The library calls os.path.abspath and
os.path.dirname are the uninterpreted parameters ap and dn. -/
def put (ap dn : String → String) (fs : FS) (args : List String)
    (payload : RecvRes) (sendOk : Bool) : HRes :=
  if args.length ≠ 3 then ⟨fs, [], Outcome.invalid⟩
  else
    let path := ap (args.getD 2 "")
    let dirs := dn path
    let fs1 := if fs.existsPath dirs then fs else fs.mkdirs dirs
    let evs1 := if fs.existsPath dirs then ([] : List Ev) else [Ev.mkdirs dirs]
    if sendOk then
      match fs1.lookup path with
      | some Entry.dir => ⟨fs1, evs1 ++ [Ev.send "VALID"], Outcome.crash⟩
      | _ =>
        let fs2 := fs1.writeFile path ""
        match payload with
        | RecvRes.connErr =>
          ⟨fs2, evs1 ++ [Ev.send "VALID", Ev.openWrite path], Outcome.connError⟩
        | RecvRes.msg d =>
          if d = "" then
            ⟨fs2, evs1 ++ [Ev.send "VALID", Ev.openWrite path, Ev.recv d], Outcome.ok⟩
          else
            ⟨fs2.writeFile path d,
             evs1 ++ [Ev.send "VALID", Ev.openWrite path, Ev.recv d, Ev.write path d],
             Outcome.ok⟩
    else ⟨fs1, evs1, Outcome.invalid⟩

/-- Server ls handler (server.py, function ls inside handle_client).
Source order: target = args[1] FIRST, which raises an uncaught
IndexError when the command has no argument after the header; then the
combined target and arity test; on success vprint(True) sends VALID,
os.listdir runs, and the newline-join of the listing is sent. Unlike
get and put, no try encloses these sends, so a ConnectionError from
them propagates uncaught to the loop handler (the connError outcome). -/
def ls (fs : FS) (args : List String) (sendOk : Bool) : HRes :=
  if args.length < 2 then ⟨fs, [], Outcome.crash⟩
  else
    let target := args.getD 1 ""
    if target = "server" ∧ args.length = 2 then
      if sendOk then
        ⟨fs, [Ev.send "VALID", Ev.listDir, Ev.send (pyJoin "\n" fs.cwdList)], Outcome.ok⟩
      else ⟨fs, [], Outcome.connError⟩
    else ⟨fs, [], Outcome.invalid⟩

end Server

/-- Network inputs of one server loop iteration: the result of the
command recv, the result of the payload recv inside put (used only when
reached), and whether sends succeed in this iteration. -/
structure StepIn where
  cmdRecv : RecvRes
  putPayload : RecvRes
  sendOk : Bool
deriving DecidableEq

/-- Command dispatch of handle_client: split the received line on single
spaces, uppercase the header, check membership in valid_headers, and run
the matching handler; an unrecognized header raises
InvalidCommandException. -/
def dispatch (ap dn : String → String) (fs : FS) (command : String)
    (inp : StepIn) : HRes :=
  let args := pySplit command ' '
  let header := pyUpper (args.getD 0 "")
  if valid_headers.contains header then
    if header = "GET" then Server.get fs args inp.sendOk
    else if header = "PUT" then Server.put ap dn fs args inp.putPayload inp.sendOk
    else Server.ls fs args inp.sendOk
  else ⟨fs, [], Outcome.invalid⟩

/-- Server-wide state seen by one session: the file system and the
clients registry (the set of registered addresses; the dict values, the
thread handles, play no role in the modeled behavior). -/
structure ServerState where
  fs : FS
  clients : List Addr
deriving DecidableEq

/-- How one iteration of the handle_client loop ends: back to awaiting
the next command, loop broken with the termination actions run
(conn.close and removal of the registry entry), or thread killed by an
uncaught exception so that neither close nor removal runs. -/
inductive LoopRes where
  | next
  | terminated
  | crashed
deriving DecidableEq

/-- One iteration of the main loop of handle_client (server.py), plus
the actions after the loop. A ConnectionError on the command recv or
inside the dispatched handler is caught, breaks the loop, and the
connection is closed and the registry entry removed. An
InvalidCommandException is answered with INVALID and the loop continues;
if that INVALID send itself raises ConnectionError, the exception is
raised inside an except suite, so it is NOT caught by the sibling
ConnectionError arm: it propagates and kills the thread without any
cleanup. An EmptyFileException just continues. Any other exception kills
the thread without cleanup. -/
def handle_client_step (ap dn : String → String) (addr : Addr)
    (st : ServerState) (inp : StepIn) : ServerState × List Ev × LoopRes :=
  match inp.cmdRecv with
  | RecvRes.connErr =>
    (⟨st.fs, st.clients.erase addr⟩, [Ev.close], LoopRes.terminated)
  | RecvRes.msg command =>
    let r := dispatch ap dn st.fs command inp
    match r.outcome with
    | Outcome.ok => (⟨r.fs, st.clients⟩, r.trace, LoopRes.next)
    | Outcome.empty => (⟨r.fs, st.clients⟩, r.trace, LoopRes.next)
    | Outcome.invalid =>
      if inp.sendOk then
        (⟨r.fs, st.clients⟩, r.trace ++ [Ev.send "INVALID"], LoopRes.next)
      else (⟨r.fs, st.clients⟩, r.trace, LoopRes.crashed)
    | Outcome.connError =>
      (⟨r.fs, st.clients.erase addr⟩, r.trace ++ [Ev.close], LoopRes.terminated)
    | Outcome.crash => (⟨r.fs, st.clients⟩, r.trace, LoopRes.crashed)

/-- Accept-loop events of the server main function, in program order. -/
inductive MainEv where
  | accepted (a : Addr)
  | registered (a : Addr)
  | started (a : Addr)
  | joined (a : Addr)
deriving DecidableEq

/-- Registration in the clients dict: assignment under a key makes the
key present (a reassignment under an existing key replaces the value,
which the model does not carry). -/
def registryInsert (cs : List Addr) (a : Addr) : List Addr :=
  if a ∈ cs then cs else a :: cs

/-- One iteration of the accept loop of main (server.py): accept,
register the session under the remote address, start its thread, join
it. The registration event precedes the start event. -/
def acceptClient (st : ServerState) (addr : Addr) : ServerState × List MainEv :=
  (⟨st.fs, registryInsert st.clients addr⟩,
   [MainEv.accepted addr, MainEv.registered addr, MainEv.started addr,
    MainEv.joined addr])

namespace Client

/-- Client get handler (client.py, function get inside main). Source
order: arity check; abspath of args[2]; makedirs of its dirname when
missing, BEFORE the handshake; valid_command sends the command line and
receives the reply (a reply other than VALID or INVALID hits a missing
dict key, an uncaught KeyError); on VALID a truncating open of the
destination (uncaught OSError if it is a directory), one recv of at most
4096 units, and a write unless the payload is the single NUL sentinel. -/
def get (ap dn : String → String) (fs : FS) (command : String)
    (args : List String) (reply : RecvRes) (payload : RecvRes)
    (sendOk : Bool) : HRes :=
  if args.length ≠ 3 then ⟨fs, [], Outcome.invalid⟩
  else
    let path := ap (args.getD 2 "")
    let fs1 := if fs.existsPath (dn path) then fs else fs.mkdirs (dn path)
    let evs1 := if fs.existsPath (dn path) then ([] : List Ev) else [Ev.mkdirs (dn path)]
    if sendOk then
      match reply with
      | RecvRes.connErr => ⟨fs1, evs1 ++ [Ev.send command], Outcome.connError⟩
      | RecvRes.msg r =>
        if r = "INVALID" then
          ⟨fs1, evs1 ++ [Ev.send command, Ev.recv r], Outcome.invalid⟩
        else if r = "VALID" then
          match fs1.lookup path with
          | some Entry.dir =>
            ⟨fs1, evs1 ++ [Ev.send command, Ev.recv r], Outcome.crash⟩
          | _ =>
            let fs2 := fs1.writeFile path ""
            match payload with
            | RecvRes.connErr =>
              ⟨fs2, evs1 ++ [Ev.send command, Ev.recv r, Ev.openWrite path],
               Outcome.connError⟩
            | RecvRes.msg d =>
              if d = "\x00" then
                ⟨fs2,
                 evs1 ++ [Ev.send command, Ev.recv r, Ev.openWrite path, Ev.recv d],
                 Outcome.ok⟩
              else
                ⟨fs2.writeFile path d,
                 evs1 ++ [Ev.send command, Ev.recv r, Ev.openWrite path, Ev.recv d,
                          Ev.write path d],
                 Outcome.ok⟩
        else ⟨fs1, evs1 ++ [Ev.send command, Ev.recv r], Outcome.crash⟩
    else ⟨fs1, evs1, Outcome.connError⟩

/-- Client put handler (client.py, function put inside main). Source
order: arity check; abspath of args[1]; a missing local source raises
InvalidCommandException before any handshake; valid_command; on VALID an
open for reading (uncaught OSError if the source became unreadable), a
read of at most 4096 units, and the send of the data (an empty read
sends zero bytes). -/
def put (ap : String → String) (fs : FS) (command : String)
    (args : List String) (reply : RecvRes) (sendOk : Bool) : HRes :=
  if args.length ≠ 3 then ⟨fs, [], Outcome.invalid⟩
  else
    let path := ap (args.getD 1 "")
    if fs.existsPath path then
      if sendOk then
        match reply with
        | RecvRes.connErr => ⟨fs, [Ev.send command], Outcome.connError⟩
        | RecvRes.msg r =>
          if r = "INVALID" then
            ⟨fs, [Ev.send command, Ev.recv r], Outcome.invalid⟩
          else if r = "VALID" then
            match fs.lookup path with
            | some (Entry.file c true) =>
              ⟨fs, [Ev.send command, Ev.recv r, Ev.openRead path,
                    Ev.send (pyRead c 4096)], Outcome.ok⟩
            | _ => ⟨fs, [Ev.send command, Ev.recv r], Outcome.crash⟩
          else ⟨fs, [Ev.send command, Ev.recv r], Outcome.crash⟩
      else ⟨fs, [], Outcome.connError⟩
    else ⟨fs, [], Outcome.invalid⟩

/-- Client ls handler (client.py, function ls inside main). The target
client is resolved entirely locally: the working directory is listed
with no handshake and nothing on the wire; the target server runs the
handshake and receives the newline-joined listing; any other target
raises InvalidCommandException. -/
def ls (fs : FS) (command : String) (args : List String)
    (reply : RecvRes) (payload : RecvRes) (sendOk : Bool) : HRes :=
  if args.length ≠ 2 then ⟨fs, [], Outcome.invalid⟩
  else
    let target := args.getD 1 ""
    if target = "client" then ⟨fs, [Ev.listDir], Outcome.ok⟩
    else if target = "server" then
      if sendOk then
        match reply with
        | RecvRes.connErr => ⟨fs, [Ev.send command], Outcome.connError⟩
        | RecvRes.msg r =>
          if r = "INVALID" then
            ⟨fs, [Ev.send command, Ev.recv r], Outcome.invalid⟩
          else if r = "VALID" then
            match payload with
            | RecvRes.connErr =>
              ⟨fs, [Ev.send command, Ev.recv r], Outcome.connError⟩
            | RecvRes.msg d =>
              ⟨fs, [Ev.send command, Ev.recv r, Ev.recv d], Outcome.ok⟩
          else ⟨fs, [Ev.send command, Ev.recv r], Outcome.crash⟩
      else ⟨fs, [], Outcome.connError⟩
    else ⟨fs, [], Outcome.invalid⟩

end Client

/-- The strings sent on the wire in a trace, in order. -/
def sends (tr : List Ev) : List String :=
  tr.filterMap (fun e => match e with | Ev.send s => some s | _ => none)

/-- One full PUT of a local source to a remote path followed by one full
GET of that remote path into a local destination, composed from the four
handlers with every network message delivered to its reader. The client
handlers receive the VALID reply the server side produces in these runs
(the server put handler replies VALID unconditionally once its open
succeeds, and the server get reply and payload are extracted from its
trace). Argument lists are passed directly, as produced by splitting a
space-free command line. Returns the final client and server file
systems. -/
def putGetRoundTrip (ap dn apS dnS : String → String) (cfs sfs : FS)
    (src remote dest : String) : FS × FS :=
  let argsP := ["PUT", src, remote]
  let cmdP := "PUT " ++ src ++ " " ++ remote
  let rCP := Client.put ap cfs cmdP argsP (RecvRes.msg "VALID") true
  let pay := (sends rCP.trace).getD 1 ""
  let rSP := Server.put apS dnS sfs argsP (RecvRes.msg pay) true
  let argsG := ["GET", remote, dest]
  let cmdG := "GET " ++ remote ++ " " ++ dest
  let rSG := Server.get rSP.fs argsG true
  let repl := (sends rSG.trace).getD 0 ""
  let payG := (sends rSG.trace).getD 1 ""
  let rCG := Client.get ap dn rCP.fs cmdG argsG (RecvRes.msg repl)
    (RecvRes.msg payG) true
  (rCG.fs, rSG.fs)

/-- Events that act on a command in the widest sense of the validation
invariant: file opens for read or write, directory creation, and
directory listing. -/
def isActedFull : Ev → Bool
  | Ev.openRead _ => true
  | Ev.openWrite _ => true
  | Ev.mkdirs _ => true
  | Ev.listDir => true
  | _ => false

/-- Acting events without directory creation: file opens and listing. -/
def isActedOpenLs : Ev → Bool
  | Ev.openRead _ => true
  | Ev.openWrite _ => true
  | Ev.listDir => true
  | _ => false

/-- Acting events restricted to file opens. -/
def isActedOpen : Ev → Bool
  | Ev.openRead _ => true
  | Ev.openWrite _ => true
  | _ => false

/-- Marks the send of the VALID token (the server replying Valid). -/
def isValidSend : Ev → Bool
  | Ev.send s => s == "VALID"
  | _ => false

/-- Marks the receipt of the VALID token (the client observing Valid). -/
def isValidRecv : Ev → Bool
  | Ev.recv s => s == "VALID"
  | _ => false

/-- Scans a trace from the start: true when no acted event occurs before
the first mark event, so every acted event is preceded by a mark. -/
def noActBeforeValid (mark acted : Ev → Bool) : List Ev → Bool
  | [] => true
  | e :: tr => if mark e then true else (!acted e) && noActBeforeValid mark acted tr

/-- Events that mutate the file system: truncating opens, directory
creation, and writes. -/
def isWriteEv : Ev → Bool
  | Ev.openWrite _ => true
  | Ev.mkdirs _ => true
  | Ev.write _ _ => true
  | _ => false

/-- A concrete client address for concrete runs. -/
def addr0 : Addr := ("127.0.0.1", 50000)

/-- An empty file system for concrete runs. -/
def fs0 : FS := ⟨[], []⟩

/-- A file system holding one existing but unreadable file. -/
def fsUnreadable : FS := ⟨[("f", Entry.file "secret" false)], []⟩

/-- A content one unit longer than the 4096-unit chunk bound. -/
def bigA : String := String.mk (List.replicate 4097 'a')

/-- The first 4096 units of bigA. -/
def bigTrunc : String := String.mk (List.replicate 4096 'a')

end SFMP

namespace SFMP

/-- A trace of events none of which is acted satisfies the scan. -/
theorem noActBeforeValid_of_nonacted (m a : Ev → Bool) (t : List Ev)
    (h : ∀ e ∈ t, a e = false) : noActBeforeValid m a t = true := by
  induction t with
  | nil => rfl
  | cons e tr ih =>
    simp only [noActBeforeValid]
    split
    · rfl
    · have he := h e (by simp)
      rw [he]
      simp only [Bool.not_false, Bool.true_and]
      exact ih (fun x hx => h x (by simp [hx]))

/-- Appending non-acted events preserves the scan. -/
theorem noActBeforeValid_append (m a : Ev → Bool) (t1 t2 : List Ev)
    (h1 : noActBeforeValid m a t1 = true) (h2 : ∀ e ∈ t2, a e = false) :
    noActBeforeValid m a (t1 ++ t2) = true := by
  induction t1 with
  | nil => exact noActBeforeValid_of_nonacted m a t2 h2
  | cons e tr ih =>
    simp only [noActBeforeValid, List.cons_append] at h1 ⊢
    split at h1
    · rename_i hm
      rw [if_pos hm]
    · rename_i hm
      rw [if_neg hm]
      simp only [Bool.and_eq_true] at h1
      obtain ⟨ha, hb⟩ := h1
      rw [ha, Bool.true_and]
      exact ih hb

/-- Looking up the path just set returns the new entry. -/
theorem lookup_setEntry_self (fs : FS) (p : String) (en : Entry) :
    (fs.setEntry p en).lookup p = some en := by
  simp [FS.lookup, FS.setEntry, List.find?]

/-- C2: the claim states that a received LS line with a wrong argument
count is answered INVALID with no side effect and no escaping exception.
The code reads args[1] before its arity check, so the bare line LS makes
the session thread die from an uncaught IndexError: no INVALID is sent
(empty trace), the loop does not continue, and the registry entry is
left in place. This theorem evaluates the step at that failing input. -/
theorem c2_ls_missing_arg_crashes :
    handle_client_step (fun x => x) (fun x => x) addr0 ⟨fs0, [addr0]⟩
      ⟨RecvRes.msg "LS", RecvRes.msg "", true⟩ =
    (⟨fs0, [addr0]⟩, [], LoopRes.crashed) := by decide

/-- C3: the claim states VALID is replied only when the source path
exists AND is readable, and that an accepted GET cannot then fail for
lack of read access. The code checks only os.path.exists, which is true
for an existing unreadable file, so the server replies VALID and the
unguarded open then raises an uncaught exception killing the session.
This theorem evaluates the step at that failing input: one file f that
exists with the readable flag false. -/
theorem c3_unreadable_file_gets_valid_then_crash :
    handle_client_step (fun x => x) (fun x => x) addr0 ⟨fsUnreadable, [addr0]⟩
      ⟨RecvRes.msg "GET f x", RecvRes.msg "", true⟩ =
    (⟨fsUnreadable, [addr0]⟩, [Ev.send "VALID"], LoopRes.crashed) := by decide

/-- C10: the server get handler never changes the file system, and its
trace holds no file-system mutating event (no truncating open, no
directory creation, no write), whether the request is rejected,
accepted, names an empty file, crashes, or hits a transport failure. -/
theorem c10_server_get_no_fs_effect (fs : FS) (args : List String) (so : Bool) :
    (Server.get fs args so).fs = fs ∧
    (Server.get fs args so).trace.all (fun e => !isWriteEv e) = true := by
  simp only [Server.get]
  repeat' split
  all_goals exact ⟨rfl, rfl⟩

/-- C1 counterexample: the claim as stated is false at three concrete
inputs. First, the server put handler creates the missing destination
directory before it sends VALID. Second, the client get handler creates
the missing local directory before the handshake even starts. Third,
the client LS of its own directory lists a directory with no handshake
at all. -/
theorem c1_counterexample :
    noActBeforeValid isValidSend isActedFull
      (Server.put (fun x => x) (fun _ => "d") fs0 ["PUT", "a", "b"]
        (RecvRes.msg "hi") true).trace = false ∧
    noActBeforeValid isValidRecv isActedFull
      (Client.get (fun x => x) (fun _ => "d") fs0 "GET r l" ["GET", "r", "l"]
        (RecvRes.msg "VALID") (RecvRes.msg "x") true).trace = false ∧
    noActBeforeValid isValidRecv isActedOpenLs
      (Client.ls fs0 "LS client" ["LS", "client"] (RecvRes.msg "")
        (RecvRes.msg "") true).trace = false := by decide

/-- C6 counterexample: the claim fails in two ways. First, an
end-of-stream read while awaiting the next command (recv returning the
empty string) does not transition the session to Terminated; the code
treats it as a malformed command, replies INVALID, and loops. Second, a
transport failure at the VALID send of a GET that would be accepted is
transmuted by the enclosing except OSError into
InvalidCommandException, and the INVALID reply attempted inside that
except suite then kills the thread: the session ends crashed, with no
close and with its registry entry left in place, not Terminated with
cleanup. -/
theorem c6_counterexample :
    ((handle_client_step (fun x => x) (fun x => x) addr0 ⟨fs0, [addr0]⟩
      ⟨RecvRes.msg "", RecvRes.msg "", true⟩).2.2 ≠ LoopRes.terminated ∧
    handle_client_step (fun x => x) (fun x => x) addr0 ⟨fs0, [addr0]⟩
      ⟨RecvRes.msg "", RecvRes.msg "", true⟩ =
    (⟨fs0, [addr0]⟩, [Ev.send "INVALID"], LoopRes.next)) ∧
    ((handle_client_step (fun x => x) (fun x => x) addr0
      ⟨⟨[("f", Entry.file "hi" true)], []⟩, [addr0]⟩
      ⟨RecvRes.msg "GET f x", RecvRes.msg "", false⟩).2.2 ≠
        LoopRes.terminated ∧
    handle_client_step (fun x => x) (fun x => x) addr0
      ⟨⟨[("f", Entry.file "hi" true)], []⟩, [addr0]⟩
      ⟨RecvRes.msg "GET f x", RecvRes.msg "", false⟩ =
    (⟨⟨[("f", Entry.file "hi" true)], []⟩, [addr0]⟩, [],
     LoopRes.crashed)) := by decide

/-- C7 counterexample: the registry entry is not removed on every way a
session can end. After accepting a client, a session that dies from an
uncaught exception (here the IndexError on the bare LS line) ends
without running the removal: the entry is left behind. -/
theorem c7_counterexample :
    (handle_client_step (fun x => x) (fun x => x) addr0
      (acceptClient ⟨fs0, []⟩ addr0).1
      ⟨RecvRes.msg "LS", RecvRes.msg "", true⟩).2.2 = LoopRes.crashed ∧
    addr0 ∈ (handle_client_step (fun x => x) (fun x => x) addr0
      (acceptClient ⟨fs0, []⟩ addr0).1
      ⟨RecvRes.msg "LS", RecvRes.msg "", true⟩).1.clients := by decide

/-- C8: a received LS server line, whatever the server state, is
answered VALID and then exactly the newline-join of the entry names of
the working directory at call time, with the file system and the
registry unchanged and the session looping for the next command; this
holds in particular when the directory is empty (the join is then the
empty string). -/
theorem c8_ls_server_listing (ap dn : String → String) (addr : Addr)
    (st : ServerState) (pp : RecvRes) :
    handle_client_step ap dn addr st ⟨RecvRes.msg "LS server", pp, true⟩ =
    (st, [Ev.send "VALID", Ev.listDir, Ev.send (pyJoin "\n" st.fs.cwdList)],
     LoopRes.next) := by
  have hsplit : pySplit "LS server" ' ' = ["LS", "server"] := rfl
  simp [handle_client_step, dispatch, hsplit, Server.ls, valid_headers, pyUpper]

/-- In every trace of the server get handler, file opens and listing
happen only after the VALID send. -/
theorem nabv_server_get (fs : FS) (args : List String) (so : Bool) :
    noActBeforeValid isValidSend isActedOpenLs (Server.get fs args so).trace = true := by
  simp only [Server.get]
  repeat' split
  all_goals simp_all [noActBeforeValid, isValidSend, isActedOpenLs]

/-- In every trace of the server put handler, file opens happen only
after the VALID send (the directory creation is not gated). -/
theorem nabv_server_put (ap dn : String → String) (fs : FS) (args : List String)
    (pp : RecvRes) (so : Bool) :
    noActBeforeValid isValidSend isActedOpenLs
      (Server.put ap dn fs args pp so).trace = true := by
  simp only [Server.put]
  repeat' split
  all_goals simp_all [noActBeforeValid, isValidSend, isActedOpenLs]

/-- In every trace of the server ls handler, the listing happens only
after the VALID send. -/
theorem nabv_server_ls (fs : FS) (args : List String) (so : Bool) :
    noActBeforeValid isValidSend isActedOpenLs (Server.ls fs args so).trace = true := by
  simp only [Server.ls]
  repeat' split
  all_goals simp_all [noActBeforeValid, isValidSend, isActedOpenLs]

/-- The gating extends through command parsing and dispatch. -/
theorem nabv_dispatch (ap dn : String → String) (fs : FS) (command : String)
    (inp : StepIn) :
    noActBeforeValid isValidSend isActedOpenLs
      (dispatch ap dn fs command inp).trace = true := by
  simp only [dispatch]
  repeat' split
  · exact nabv_server_get _ _ _
  · exact nabv_server_put _ _ _ _ _ _
  · exact nabv_server_ls _ _ _
  · rfl

/-- The gating extends through one whole iteration of the server loop,
including the INVALID reply and the termination path. -/
theorem nabv_step (ap dn : String → String) (addr : Addr) (st : ServerState)
    (inp : StepIn) :
    noActBeforeValid isValidSend isActedOpenLs
      (handle_client_step ap dn addr st inp).2.1 = true := by
  simp only [handle_client_step]
  split
  · simp [noActBeforeValid, isValidSend, isActedOpenLs]
  · repeat' split
    all_goals
      first
      | exact nabv_dispatch _ _ _ _ _
      | exact noActBeforeValid_append _ _ _ _ (nabv_dispatch _ _ _ _ _)
          (by intro e he; simp only [List.mem_singleton] at he; subst he; rfl)

/-- In every trace of the client get handler, file opens happen only
after the VALID reply is received. -/
theorem nabv_client_get (ap dn : String → String) (fs : FS) (command : String)
    (args : List String) (reply payload : RecvRes) (so : Bool) :
    noActBeforeValid isValidRecv isActedOpen
      (Client.get ap dn fs command args reply payload so).trace = true := by
  simp only [Client.get]
  repeat' split
  all_goals simp_all [noActBeforeValid, isValidRecv, isActedOpen]

/-- In every trace of the client put handler, the file open happens
only after the VALID reply is received. -/
theorem nabv_client_put (ap : String → String) (fs : FS) (command : String)
    (args : List String) (reply : RecvRes) (so : Bool) :
    noActBeforeValid isValidRecv isActedOpen
      (Client.put ap fs command args reply so).trace = true := by
  simp only [Client.put]
  repeat' split
  all_goals simp_all [noActBeforeValid, isValidRecv, isActedOpen]

/-- The client ls handler opens no file at all, so its trace trivially
keeps file opens behind the VALID reply. -/
theorem nabv_client_ls (fs : FS) (command : String) (args : List String)
    (reply payload : RecvRes) (so : Bool) :
    noActBeforeValid isValidRecv isActedOpen
      (Client.ls fs command args reply payload so).trace = true := by
  simp only [Client.ls]
  repeat' split
  all_goals simp_all [noActBeforeValid, isValidRecv, isActedOpen]

/-- C1 amended: on the server, every file open (for read or for write)
and every directory listing happens only after the VALID reply has been
sent, across parsing, dispatch, every handler, and the INVALID and
termination paths; on the client, every file open happens only after
the VALID reply has been received. Directory creation is excluded on
both sides (the server put handler creates the missing destination
directory before sending VALID, the client get handler creates the
missing local directory before the handshake), and the client-local
LS listing is excluded (it involves no handshake at all). -/
theorem c1_amended :
    (∀ (ap dn : String → String) (addr : Addr) (st : ServerState) (inp : StepIn),
      noActBeforeValid isValidSend isActedOpenLs
        (handle_client_step ap dn addr st inp).2.1 = true) ∧
    (∀ (ap dn : String → String) (fs : FS) (command : String) (args : List String)
      (reply payload : RecvRes) (so : Bool),
      noActBeforeValid isValidRecv isActedOpen
        (Client.get ap dn fs command args reply payload so).trace = true) ∧
    (∀ (ap : String → String) (fs : FS) (command : String) (args : List String)
      (reply : RecvRes) (so : Bool),
      noActBeforeValid isValidRecv isActedOpen
        (Client.put ap fs command args reply so).trace = true) ∧
    (∀ (fs : FS) (command : String) (args : List String)
      (reply payload : RecvRes) (so : Bool),
      noActBeforeValid isValidRecv isActedOpen
        (Client.ls fs command args reply payload so).trace = true) :=
  ⟨fun ap dn addr st inp => nabv_step ap dn addr st inp,
   fun ap dn fs command args reply payload so =>
     nabv_client_get ap dn fs command args reply payload so,
   fun ap fs command args reply so => nabv_client_put ap fs command args reply so,
   fun fs command args reply payload so =>
     nabv_client_ls fs command args reply payload so⟩

/-- C6 amended: a ConnectionError while awaiting the next command, or a
ConnectionError that reaches the loop handler uncaught from inside the
handling of the received command (the LS reply sends, or the PUT
payload receive, which have no enclosing try, so the dispatched handler
ends with ConnectionError), transitions the session to Terminated: the
loop breaks, the connection is closed, the registry entry of this
session is removed, and every other registered address is untouched.
Two failure shapes are NOT such failures (see the counterexample): a
bare end-of-stream read is handled as a malformed command and answered
INVALID, and a transport failure at the VALID send inside GET or PUT is
transmuted by the enclosing except OSError into the malformed-command
path, whose INVALID reply then kills the thread without close or
registry cleanup. -/
theorem c6_amended (ap dn : String → String) (addr : Addr) (st : ServerState)
    (inp : StepIn)
    (h : inp.cmdRecv = RecvRes.connErr ∨
      ∃ command, inp.cmdRecv = RecvRes.msg command ∧
        (dispatch ap dn st.fs command inp).outcome = Outcome.connError) :
    (handle_client_step ap dn addr st inp).2.2 = LoopRes.terminated ∧
    (handle_client_step ap dn addr st inp).1.clients = st.clients.erase addr ∧
    Ev.close ∈ (handle_client_step ap dn addr st inp).2.1 ∧
    ∀ b ∈ st.clients, b ≠ addr →
      b ∈ (handle_client_step ap dn addr st inp).1.clients := by
  rcases h with h | ⟨command, hc, ho⟩
  · simp only [handle_client_step, h]
    refine ⟨by trivial, by trivial, by simp, ?_⟩
    intro b hb hne
    exact (List.mem_erase_of_ne hne).mpr hb
  · simp only [handle_client_step, hc, ho]
    refine ⟨by trivial, by trivial, by simp, ?_⟩
    intro b hb hne
    exact (List.mem_erase_of_ne hne).mpr hb

/-- C6 witness: the amended statement at one concrete terminating input,
with a second registered session that survives untouched. -/
theorem c6_amended_witness :
    (handle_client_step (fun x => x) (fun x => x) addr0
      ⟨fs0, [addr0, ("10.0.0.2", 4)]⟩
      ⟨RecvRes.connErr, RecvRes.msg "", true⟩).2.2 = LoopRes.terminated ∧
    (handle_client_step (fun x => x) (fun x => x) addr0
      ⟨fs0, [addr0, ("10.0.0.2", 4)]⟩
      ⟨RecvRes.connErr, RecvRes.msg "", true⟩).1.clients =
      [addr0, ("10.0.0.2", 4)].erase addr0 ∧
    Ev.close ∈ (handle_client_step (fun x => x) (fun x => x) addr0
      ⟨fs0, [addr0, ("10.0.0.2", 4)]⟩
      ⟨RecvRes.connErr, RecvRes.msg "", true⟩).2.1 ∧
    ∀ b ∈ [addr0, ("10.0.0.2", 4)], b ≠ addr0 →
      b ∈ (handle_client_step (fun x => x) (fun x => x) addr0
        ⟨fs0, [addr0, ("10.0.0.2", 4)]⟩
        ⟨RecvRes.connErr, RecvRes.msg "", true⟩).1.clients :=
  c6_amended (fun x => x) (fun x => x) addr0 ⟨fs0, [addr0, ("10.0.0.2", 4)]⟩
    ⟨RecvRes.connErr, RecvRes.msg "", true⟩ (Or.inl rfl)

/-- C7 amended: for a fresh address, accepting the connection registers
the session under the address, the registration event precedes the
start event, and a session terminating through its normal path (a
ConnectionError) removes the entry exactly once, restoring the registry
to its prior value; a session dying from an uncaught exception instead
leaves the entry behind (see the counterexample). -/
theorem c7_amended (ap dn : String → String) (st : ServerState) (addr : Addr)
    (h : addr ∉ st.clients) :
    addr ∈ (acceptClient st addr).1.clients ∧
    (∃ i j, i < j ∧
      (acceptClient st addr).2.get? i = some (MainEv.registered addr) ∧
      (acceptClient st addr).2.get? j = some (MainEv.started addr)) ∧
    ∀ pp so, (handle_client_step ap dn addr (acceptClient st addr).1
      ⟨RecvRes.connErr, pp, so⟩).1.clients = st.clients := by
  refine ⟨?_, ⟨1, 2, ?_, ?_, ?_⟩, ?_⟩
  · simp [acceptClient, registryInsert, h]
  · norm_num
  · rfl
  · rfl
  · intro pp so
    simp only [handle_client_step, acceptClient, registryInsert]
    rw [if_neg h]
    exact List.erase_cons_head addr st.clients

/-- C7 witness: the amended statement at one concrete fresh address over
an empty registry. -/
theorem c7_amended_witness :
    addr0 ∈ (acceptClient ⟨fs0, []⟩ addr0).1.clients ∧
    (∃ i j, i < j ∧
      (acceptClient ⟨fs0, []⟩ addr0).2.get? i = some (MainEv.registered addr0) ∧
      (acceptClient ⟨fs0, []⟩ addr0).2.get? j = some (MainEv.started addr0)) ∧
    ∀ pp so, (handle_client_step (fun x => x) (fun x => x) addr0
      (acceptClient ⟨fs0, []⟩ addr0).1
      ⟨RecvRes.connErr, pp, so⟩).1.clients = ([] : List Addr) :=
  c7_amended (fun x => x) (fun x => x) ⟨fs0, []⟩ addr0 (by decide)

/-- C9: a PUT whose destination names an existing regular file opens it
with a truncating write mode, and after the transfer the file holds
exactly the received payload: nothing of the previous content survives,
whatever it was, and the handler returns normally. -/
theorem c9_put_overwrites (ap dn : String → String) (fs : FS)
    (args : List String) (d old p : String) (r : Bool)
    (hlen : args.length = 3)
    (hp : ap (args.getD 2 "") = p)
    (hdir : fs.existsPath (dn p) = true)
    (hold : fs.lookup p = some (Entry.file old r)) :
    (Server.put ap dn fs args (RecvRes.msg d) true).fs.lookup p
      = some (Entry.file d r) ∧
    Ev.openWrite p ∈ (Server.put ap dn fs args (RecvRes.msg d) true).trace ∧
    (Server.put ap dn fs args (RecvRes.msg d) true).outcome = Outcome.ok := by
  simp only [Server.put]
  rw [hp]
  by_cases hd : d = ""
  · subst hd
    simp [hlen, hdir, hold, FS.writeFile, lookup_setEntry_self]
  · simp [hlen, hdir, hold, hd, FS.writeFile, lookup_setEntry_self]

/-- C9 witness: one concrete overwrite of an existing file. -/
theorem c9_put_overwrites_witness :
    (Server.put (fun x => x) (fun _ => "d")
      ⟨[("d", Entry.dir), ("b", Entry.file "OLD" true)], []⟩
      ["PUT", "a", "b"] (RecvRes.msg "new") true).fs.lookup "b" =
      some (Entry.file "new" true) ∧
    Ev.openWrite "b" ∈ (Server.put (fun x => x) (fun _ => "d")
      ⟨[("d", Entry.dir), ("b", Entry.file "OLD" true)], []⟩
      ["PUT", "a", "b"] (RecvRes.msg "new") true).trace ∧
    (Server.put (fun x => x) (fun _ => "d")
      ⟨[("d", Entry.dir), ("b", Entry.file "OLD" true)], []⟩
      ["PUT", "a", "b"] (RecvRes.msg "new") true).outcome = Outcome.ok :=
  c9_put_overwrites (fun x => x) (fun _ => "d")
    ⟨[("d", Entry.dir), ("b", Entry.file "OLD" true)], []⟩
    ["PUT", "a", "b"] "new" "OLD" "b" true (by decide) (by decide) (by decide)
    (by decide)

/-- C5: a GET of an existing zero-byte readable file makes the server
send VALID, open the source for reading, and send the single-NUL
sentinel, leaving its file system untouched; and a client get handler
that receives VALID and then that sentinel creates the destination as a
zero-length file and performs no write at all, so the sentinel byte
never reaches the destination content. -/
theorem c5_empty_file
    (fs : FS) (p x : String) (hp : fs.lookup p = some (Entry.file "" true))
    (ap dn : String → String) (cfs : FS) (cmd remote dst : String)
    (h2 : cfs.existsPath (dn (ap dst)) = true)
    (h3 : cfs.lookup (ap dst) = none) :
    Server.get fs ["GET", p, x] true =
      ⟨fs, [Ev.send "VALID", Ev.openRead p, Ev.send "\x00"], Outcome.empty⟩ ∧
    (Client.get ap dn cfs cmd ["GET", remote, dst] (RecvRes.msg "VALID")
      (RecvRes.msg "\x00") true).fs.lookup (ap dst) =
      some (Entry.file "" true) ∧
    ∀ q e, Ev.write q e ∉ (Client.get ap dn cfs cmd ["GET", remote, dst]
      (RecvRes.msg "VALID") (RecvRes.msg "\x00") true).trace := by
  have hex : fs.existsPath p = true := by simp [FS.existsPath, hp]
  have hread : pyRead "" 4096 = "" := rfl
  refine ⟨?_, ?_, ?_⟩
  · simp [Server.get, hp, hex, hread]
  · simp [Client.get, h2, h3, FS.writeFile, lookup_setEntry_self]
  · intro q e
    simp [Client.get, h2, h3]

/-- C5 witness: a concrete zero-byte file named e on the server side and
a concrete fresh destination t on the client side. -/
theorem c5_empty_file_witness :
    Server.get ⟨[("e", Entry.file "" true)], []⟩ ["GET", "e", "t"] true =
      ⟨⟨[("e", Entry.file "" true)], []⟩,
       [Ev.send "VALID", Ev.openRead "e", Ev.send "\x00"], Outcome.empty⟩ ∧
    (Client.get (fun z => z) (fun _ => "d") ⟨[("d", Entry.dir)], []⟩
      "GET e t" ["GET", "e", "t"] (RecvRes.msg "VALID")
      (RecvRes.msg "\x00") true).fs.lookup "t" = some (Entry.file "" true) ∧
    ∀ q e, Ev.write q e ∉ (Client.get (fun z => z) (fun _ => "d")
      ⟨[("d", Entry.dir)], []⟩ "GET e t" ["GET", "e", "t"]
      (RecvRes.msg "VALID") (RecvRes.msg "\x00") true).trace :=
  c5_empty_file ⟨[("e", Entry.file "" true)], []⟩ "e" "t" (by decide)
    (fun z => z) (fun _ => "d") ⟨[("d", Entry.dir)], []⟩ "GET e t" "e" "t"
    (by decide) (by decide)

/-- Reading a bounded chunk twice with the same bound yields the first
chunk. -/
theorem pyRead_idem (c : String) (n : Nat) :
    pyRead (pyRead c n) n = pyRead c n := by
  simp [pyRead, List.take_take]

/-- The round trip through the four handlers: when the local source
holds content C readable, the remote path is fresh, its directory
exists, the destination is fresh with an existing directory, and the
first chunk of C is neither empty nor the NUL sentinel, the destination
ends up holding exactly the first 4096 units of C (and only that). -/
theorem roundTrip_eq (ap dn apS dnS : String → String) (cfs sfs : FS)
    (src remote dest C : String)
    (h1 : cfs.lookup (ap src) = some (Entry.file C true))
    (h2 : sfs.existsPath (dnS remote) = true)
    (h3 : apS remote = remote)
    (h4 : sfs.lookup remote = none)
    (h5 : pyRead C 4096 ≠ "")
    (h6 : pyRead C 4096 ≠ "\x00")
    (h7 : cfs.existsPath (dn (ap dest)) = true)
    (h8 : cfs.lookup (ap dest) = none) :
    (putGetRoundTrip ap dn apS dnS cfs sfs src remote dest).1.lookup (ap dest)
      = some (Entry.file (pyRead C 4096) true) := by
  have hex1 : cfs.existsPath (ap src) = true := by simp [FS.existsPath, h1]
  have hCP : Client.put ap cfs ("PUT " ++ src ++ " " ++ remote)
      ["PUT", src, remote] (RecvRes.msg "VALID") true =
      ⟨cfs, [Ev.send ("PUT " ++ src ++ " " ++ remote), Ev.recv "VALID",
             Ev.openRead (ap src), Ev.send (pyRead C 4096)], Outcome.ok⟩ := by
    simp [Client.put, hex1, h1]
  have hSP : Server.put apS dnS sfs ["PUT", src, remote]
      (RecvRes.msg (pyRead C 4096)) true =
      ⟨(sfs.setEntry remote (Entry.file "" true)).setEntry remote
         (Entry.file (pyRead C 4096) true),
       [Ev.send "VALID", Ev.openWrite remote, Ev.recv (pyRead C 4096),
        Ev.write remote (pyRead C 4096)], Outcome.ok⟩ := by
    simp [Server.put, h3, h2, h4, h5, FS.writeFile, lookup_setEntry_self]
  have hSG : Server.get ((sfs.setEntry remote (Entry.file "" true)).setEntry
      remote (Entry.file (pyRead C 4096) true)) ["GET", remote, dest] true =
      ⟨(sfs.setEntry remote (Entry.file "" true)).setEntry remote
         (Entry.file (pyRead C 4096) true),
       [Ev.send "VALID", Ev.openRead remote, Ev.send (pyRead C 4096)],
       Outcome.ok⟩ := by
    have hl := lookup_setEntry_self (sfs.setEntry remote (Entry.file "" true))
      remote (Entry.file (pyRead C 4096) true)
    have hexr : ((sfs.setEntry remote (Entry.file "" true)).setEntry remote
        (Entry.file (pyRead C 4096) true)).existsPath remote = true := by
      simp [FS.existsPath, hl]
    simp [Server.get, hl, hexr, pyRead_idem, h5]
  have hCG : Client.get ap dn cfs ("GET " ++ remote ++ " " ++ dest)
      ["GET", remote, dest] (RecvRes.msg "VALID")
      (RecvRes.msg (pyRead C 4096)) true =
      ⟨(cfs.setEntry (ap dest) (Entry.file "" true)).setEntry (ap dest)
         (Entry.file (pyRead C 4096) true),
       [Ev.send ("GET " ++ remote ++ " " ++ dest), Ev.recv "VALID",
        Ev.openWrite (ap dest), Ev.recv (pyRead C 4096),
        Ev.write (ap dest) (pyRead C 4096)], Outcome.ok⟩ := by
    simp [Client.get, h7, h8, h6, FS.writeFile, lookup_setEntry_self]
  simp only [putGetRoundTrip, hCP]
  simp [sends]
  rw [hSP]
  simp [sends]
  rw [hSG]
  simp [sends]
  rw [hCG]
  exact lookup_setEntry_self _ _ _

/-- The first chunk of bigA is bigTrunc. -/
theorem pyRead_bigA : pyRead bigA 4096 = bigTrunc := by
  show String.mk ((List.replicate 4097 'a').take 4096) = bigTrunc
  rw [List.take_replicate]
  rw [show min 4096 4097 = 4096 from by norm_num]
  rfl

/-- Strings with data of different lengths differ. -/
theorem mk_ne_of_length (l1 l2 : List Char) (h : l1.length ≠ l2.length) :
    String.mk l1 ≠ String.mk l2 := by
  intro he
  apply h
  have hd := congrArg (fun s => s.data.length) he
  simpa using hd

/-- bigTrunc is not the empty string. -/
theorem bigTrunc_ne_empty : bigTrunc ≠ "" :=
  fun h => mk_ne_of_length (List.replicate 4096 'a') []
    (by rw [List.length_replicate]; norm_num) h

/-- bigTrunc is not the NUL sentinel. -/
theorem bigTrunc_ne_nul : bigTrunc ≠ "\x00" :=
  fun h => mk_ne_of_length (List.replicate 4096 'a') ['\x00']
    (by rw [List.length_replicate]; norm_num) h

/-- bigTrunc is not bigA. -/
theorem bigTrunc_ne_bigA : bigTrunc ≠ bigA :=
  fun h => mk_ne_of_length (List.replicate 4096 'a') (List.replicate 4097 'a')
    (by rw [List.length_replicate, List.length_replicate]; norm_num) h

/-- C4: the claim includes contents larger than one 4096-unit chunk,
but both transfer directions read and write at most one 4096-unit
chunk. Evaluating the full PUT-then-GET composition on a 4097-unit
content shows the destination ends up with only the first 4096 units,
not a byte-for-byte copy. -/
theorem c4_roundtrip_truncates :
    (putGetRoundTrip (fun z => z) (fun _ => "d") (fun z => z) (fun _ => "d")
      ⟨[("s", Entry.file bigA true), ("d", Entry.dir)], []⟩
      ⟨[("d", Entry.dir)], []⟩ "s" "r" "t").1.lookup "t"
      = some (Entry.file bigTrunc true) ∧ bigTrunc ≠ bigA := by
  refine ⟨?_, bigTrunc_ne_bigA⟩
  have h := roundTrip_eq (fun z => z) (fun _ => "d") (fun z => z) (fun _ => "d")
    ⟨[("s", Entry.file bigA true), ("d", Entry.dir)], []⟩
    ⟨[("d", Entry.dir)], []⟩ "s" "r" "t" bigA
    rfl rfl rfl rfl
    (by rw [pyRead_bigA]; exact bigTrunc_ne_empty)
    (by rw [pyRead_bigA]; exact bigTrunc_ne_nul)
    rfl rfl
  rw [pyRead_bigA] at h
  exact h

end SFMP
